import Mathlib

/-!
Shallow embedding of the ENLTbot repository (LinXing-cloud/ENLTbot): the
connection/session lifecycle manager of `bot_core.py` and `app.py`, the
message decoding of `message_handlers.py`, and the per-sender rate guard of
`app.py` (`LevelSystem`).  Definitions are translated from the Python source;
the theorems settle the specification's claims about them.  Timestamps
(`time.time()`) are modelled as integers, cooperative-concurrency loops as
explicit step functions over the relevant object state, and network or
handler effects as explicit outcome parameters.
-/

namespace MessageHandlers

/-- A Python value as it can reach `Message._safe_int` (`message_handlers.py`
75-87): `None`, an `int`, a `str`, or any other object (dict, list, float is
not produced by the wire payloads in question) on which `int()` raises
`TypeError`. -/
inductive PyVal
  | pynone
  | pyint (i : Int)
  | pystr (s : String)
  | pyobj
  deriving DecidableEq

/-- The two exception classes `_safe_int`'s `except (ValueError, TypeError)`
clause catches; no other exception can arise in its body. -/
inductive PyErr
  | valueError
  | typeError
  deriving DecidableEq

/-- Decimal digit run to a number; `Option.none` unless the list is nonempty
and all decimal digits. -/
def digitsVal (cs : List Char) : Option Nat :=
  if cs ≠ [] ∧ cs.all Char.isDigit then
    some (cs.foldl (fun acc c => acc * 10 + (c.toNat - 48)) 0)
  else Option.none

/-- Python `int(s)` on a string: surrounding whitespace stripped, an optional
sign, then decimal digits; anything else raises `ValueError`, modelled as
`Option.none`. -/
def pyIntOfString (s : String) : Option Int :=
  match s.trim.toList with
  | [] => Option.none
  | c :: cs =>
    if c = '+' then (digitsVal cs).map (fun n => (n : Int))
    else if c = '-' then (digitsVal cs).map (fun n => -(n : Int))
    else (digitsVal (c :: cs)).map (fun n => (n : Int))

/-- Python `str.lower`. -/
def pyLower (s : String) : String := s.map Char.toLower

/-- The body of `Message._safe_int` before its `except` clause: the
computation that can raise `ValueError` (unparsable string) or `TypeError`
(`int()` of a non-numeric object). -/
def safeIntCore (v : PyVal) : Except PyErr (Option Int) :=
  match v with
  | .pynone => .ok Option.none
  | .pystr s =>
    if pyLower s = "none" ∨ pyLower s = "null" ∨ pyLower s = "undefined" then
      .ok Option.none
    else
      match pyIntOfString s with
      | some i => .ok (some i)
      | Option.none => .error .valueError
  | .pyint i => .ok (some i)
  | .pyobj => .error .typeError

/-- `Message._safe_int`: the `except (ValueError, TypeError)` clause maps
both exceptions to `None`. -/
def safe_int (v : PyVal) : Option Int :=
  match safeIntCore v with
  | .ok r => r
  | .error _ => Option.none

/-- The raw payload of an inbound message restricted to the id-like fields
that `Message.__init__` (`message_handlers.py` 57-68) reads through
`_safe_int`; `data.get(k)` yields `None` for an absent key, modelled as
`PyVal.pynone`. -/
structure MsgData where
  id : PyVal
  sendId : PyVal
  recvId : PyVal
  groupId : PyVal
  deriving DecidableEq

/-- The id-like fields of a constructed `Message`: each is `_safe_int` of the
corresponding raw field. -/
structure MessageIds where
  id : Option Int
  send_id : Option Int
  recv_id : Option Int
  group_id : Option Int
  deriving DecidableEq

/-- The id-like part of `Message.__init__`. -/
def messageOfData (d : MsgData) : MessageIds :=
  { id := safe_int d.id
    send_id := safe_int d.sendId
    recv_id := safe_int d.recvId
    group_id := safe_int d.groupId }

end MessageHandlers

namespace BotCore

/-- The `FORCE_OFFLINE` wire command code (`WSCommand` in
`message_handlers.py`: 0=AUTH, 1=HEARTBEAT, 2=FORCE_OFFLINE,
3=PRIVATE_MESSAGE, 4=GROUP_MESSAGE, 5=SYSTEM_MESSAGE). -/
def FORCE_OFFLINE : Int := 2

/-- A decoded inbound frame, reduced to the command code `data.get('cmd')`
that drives `_handle_ws_message`; a frame without an integer `cmd` matches
no branch there and is modelled by any code outside 0-5. -/
structure Frame where
  cmd : Int
  deriving DecidableEq

/-- One item the receive loop takes from the socket before the peer closes:
either a frame whose text `json.loads` decodes, or a malformed one on which
`json.loads` raises. -/
inductive RawItem
  | frame (f : Frame)
  | malformed
  deriving DecidableEq

/-- The `EnhancedBoxIM` connection-supervisor flags and counters read and
written by `_ws_loop`, `_ws_connect`, `_ws_receive` and
`_handle_ws_message` (`bot_core.py`): the run flag `ws_running`, the
connected flag `_ws_connected_flag`, `ws_reconnect_count`, and the variable
`consecutive_failures` local to `_ws_loop`. -/
structure WsState where
  ws_running : Bool
  ws_connected_flag : Bool
  ws_reconnect_count : Nat
  consecutive_failures : Nat
  deriving DecidableEq

/-- `EnhancedBoxIM._handle_ws_message` (`bot_core.py` 761-779) restricted to
its effect on the supervisor state: a `FORCE_OFFLINE` frame clears both the
run flag and the connected flag; every other command only dispatches
messages or logs and leaves these flags unchanged. -/
def handle_ws_message (s : WsState) (f : Frame) : WsState :=
  if f.cmd = FORCE_OFFLINE then
    { s with ws_running := false, ws_connected_flag := false }
  else s

/-- How `EnhancedBoxIM._ws_receive` exits: normally (the connection closed;
its `except ConnectionClosed` clause clears the connected flag), or with an
exception escaping the loop — `json.loads` raising on a malformed frame is
the only uncaught raiser in the loop body. -/
inductive RecvExit
  | closed
  | raised
  deriving DecidableEq

/-- `EnhancedBoxIM._ws_receive` (`bot_core.py` 749-759): iterates over the
items the socket delivers before the peer closes; `json.loads` of a
malformed item raises out of the loop (nothing inside the loop catches it),
otherwise the decoded frame goes to `_handle_ws_message`. -/
def ws_receive (s : WsState) : List RawItem → WsState × RecvExit
  | [] => ({ s with ws_connected_flag := false }, .closed)
  | .malformed :: _ => (s, .raised)
  | .frame f :: rest => ws_receive (handle_ws_message s f) rest

/-- `EnhancedBoxIM._ws_connect` (`bot_core.py` 643-697) with the network
outcomes explicit: `openOk` is whether the three-retry `websockets.connect`
loop produced a socket (otherwise the last attempt's exception propagates),
`authOk` whether the bounded `_ws_auth` send succeeded, and `frames` what
the receive loop then took from the socket.  Returns the resulting state and
whether the call raised.  After a successful open, `ws_reconnect_count` is
reset and the connected flag set before authentication; the `finally` block
always clears the connected flag and cancels the heartbeat task (which
touches no modelled state beyond that flag). -/
def ws_connect (s : WsState) (openOk authOk : Bool) (frames : List RawItem) :
    WsState × Bool :=
  if !openOk then (s, true)
  else
    let s1 := { s with ws_reconnect_count := 0, ws_connected_flag := true }
    if !authOk then ({ s1 with ws_connected_flag := false }, true)
    else
      let r := ws_receive s1 frames
      ({ r.1 with ws_connected_flag := false },
        match r.2 with
        | .raised => true
        | .closed => false)

/-- The environment outcomes one `_ws_loop` iteration consumes.
`reloginOk` is the outcome of `relogin()` if the iteration calls it; a
failed `relogin` does not touch the supervisor flags or counters
(`bot_core.py` 812-814), and a successful one re-acquires tokens, which
lives outside this state (its nested `disconnect`/`connect` calls are
outside this per-iteration model). -/
structure IterInput where
  openOk : Bool
  authOk : Bool
  frames : List RawItem
  reloginOk : Bool
  deriving DecidableEq

/-- What one `_ws_loop` iteration produced: the new supervisor state,
whether `relogin` was called, and the backoff delay slept before the next
connect attempt (if one was scheduled). -/
structure IterResult where
  state : WsState
  reloginAttempted : Bool
  sleptDelay : Option Nat
  deriving DecidableEq

/-- One iteration of the `while self.ws_running` body of
`EnhancedBoxIM._ws_loop` (`bot_core.py` 609-641), for a state in which the
loop guard held.  `maxF` is `BotConfig.MAX_RECONNECT_ATTEMPTS`, `base` is
`RECONNECT_DELAY` and `cap` is `MAX_RECONNECT_DELAY`.  When `_ws_connect`
returns normally, lines 612-613 reset both counters and the inner wait loop
exits at once because the `finally` of `_ws_connect` has already cleared the
connected flag; when it raises, only `consecutive_failures` grows.  The
trailing block (lines 625-641) then possibly calls `relogin` and schedules
the backoff sleep. -/
def ws_loop_iter (maxF base cap : Nat) (inp : IterInput) (s : WsState) :
    IterResult :=
  let c := ws_connect s inp.openOk inp.authOk inp.frames
  let s2 :=
    if c.2 then
      { c.1 with consecutive_failures := c.1.consecutive_failures + 1 }
    else
      { c.1 with ws_reconnect_count := 0, consecutive_failures := 0 }
  if s2.ws_running && !s2.ws_connected_flag then
    let att := decide (s2.consecutive_failures ≥ maxF)
    let s3 :=
      if s2.consecutive_failures ≥ maxF then
        if inp.reloginOk then
          { s2 with consecutive_failures := 0, ws_reconnect_count := 0 }
        else
          { s2 with consecutive_failures := maxF - 1 }
      else s2
    let s4 := { s3 with ws_reconnect_count := s3.ws_reconnect_count + 1 }
    { state := s4, reloginAttempted := att,
      sleptDelay := some (min (base * 2 ^ s4.ws_reconnect_count) cap) }
  else
    { state := s2, reloginAttempted := false, sleptDelay := Option.none }

/-- `EnhancedBoxIM._ws_loop` run over a list of per-iteration environment
outcomes: each iteration consumes one `IterInput`; the loop exits as soon as
the run flag is cleared and consumes nothing further.  The returned trace
records, for each executed iteration, whether `relogin` was attempted and
the backoff delay slept. -/
def ws_loop_run (maxF base cap : Nat) :
    WsState → List IterInput → WsState × List (Bool × Option Nat)
  | s, [] => (s, [])
  | s, inp :: rest =>
    if s.ws_running then
      let r := ws_loop_iter maxF base cap inp s
      let t := ws_loop_run maxF base cap r.state rest
      (t.1, (r.reloginAttempted, r.sleptDelay) :: t.2)
    else (s, [])

/-- `BotConfig.RECONNECT_DELAY` default (`config.py` 37). -/
def RECONNECT_DELAY : Nat := 3

/-- `BotConfig.MAX_RECONNECT_DELAY` default (`config.py` 38). -/
def MAX_RECONNECT_DELAY : Nat := 60

/-- `BotConfig.MAX_RECONNECT_ATTEMPTS` default (`config.py` 39). -/
def MAX_RECONNECT_ATTEMPTS : Nat := 10

/-- The supervisor state as `connect()` first enters `_ws_loop`. -/
def initWs : WsState :=
  { ws_running := true, ws_connected_flag := false,
    ws_reconnect_count := 0, consecutive_failures := 0 }

/-- An iteration environment in which the connect attempt fails and a
re-login, if tried, fails too. -/
def failInput : IterInput :=
  { openOk := false, authOk := false, frames := [], reloginOk := false }

end BotCore

namespace AppCore

open BotCore (Frame RawItem FORCE_OFFLINE)

/-- The `BoxIM` (`app.py`) state relevant to its receive loop: its run
flag. -/
structure AppWsState where
  ws_running : Bool
  deriving DecidableEq

/-- `BoxIM._handle_ws_message` (`app.py` 2413-2433) restricted to its effect
on the run flag: `FORCE_OFFLINE` clears it; the other commands dispatch or
log only.  The whole body runs inside `try/except`. -/
def app_handle_ws_message (s : AppWsState) (f : Frame) : AppWsState :=
  if f.cmd = FORCE_OFFLINE then { s with ws_running := false } else s

/-- `BoxIM._ws_receive` (`app.py` 2393-2411): `json.loads` and the handling
of each frame run inside a per-frame `try/except`; a `JSONDecodeError` is
logged and the loop continues with the next frame, and the closing of the
connection is caught outside the loop. -/
def app_ws_receive (s : AppWsState) : List RawItem → AppWsState
  | [] => s
  | .malformed :: rest => app_ws_receive s rest
  | .frame f :: rest => app_ws_receive (app_handle_ws_message s f) rest

end AppCore

namespace AuthClient

/-- The fields of `EnhancedBoxIM` that `login`, `refresh_token_if_needed`
and `is_logged_in` read and write (`bot_core.py`): the token store
(`access_token`, `refresh_token` and their absolute expiry instants), the
resolved `user_id`, and the refresh-control state
(`_last_token_refresh_time`, `_is_refreshing_token`). -/
structure AuthState where
  access_token : Option String
  refresh_token : Option String
  access_token_expires : Int
  refresh_token_expires : Int
  user_id : Option Int
  last_token_refresh_time : Int
  is_refreshing_token : Bool
  deriving DecidableEq

/-- The `data` object of a successful login endpoint response
(`bot_core.py` 520-524). -/
structure LoginData where
  accessToken : String
  refreshToken : String
  accessTokenExpiresIn : Int
  refreshTokenExpiresIn : Int
  deriving DecidableEq

/-- Outcome of the `/api/refresh` request (`bot_core.py` 396-418): a
successful body (whose `refreshToken` and `refreshTokenExpiresIn` entries
are optional — absent ones keep the stored values), a non-200 HTTP status,
a 200 status with a non-200 application code, or an exception raised by the
request itself. -/
inductive RefreshNet
  | ok (accessToken : String) (refreshToken : Option String)
      (accessTokenExpiresIn : Int) (refreshTokenExpiresIn : Option Int)
  | badStatus
  | apiError
  | raises
  deriving DecidableEq

/-- Outcome of the JWT-payload inspection in `login` (`bot_core.py`
528-549): a truthy subject claim (first of `userId`, `sub`, `user_id`)
that `int()` converts; no usable claim (absent or falsy, e.g. 0 or empty);
or an exception anywhere in the split/base64/json/`int()` steps. -/
inductive TokenParse
  | claim (id : Int)
  | noClaim
  | parseError
  deriving DecidableEq

/-- Outcome of one `self.user.get_self_info()` call: a user-info object
whose `id` entry is this (a falsy or absent `id` is `Option.none`), or the
request raises. -/
inductive SelfInfo
  | ok (id : Option Int)
  | raises
  deriving DecidableEq

/-- `EnhancedBoxIM.login` (`bot_core.py` 491-583) with the network outcomes
explicit.  `resp` is the login endpoint outcome (`Option.none` for a
non-200 status, a non-200 application code, or a request exception — all
three paths return `False`, with the tokens already cleared by lines
497-498); `parse` is the JWT-payload inspection; `si1` is the self-info
call made by the no-claim branch (line 552) and `si2` the one made by the
`except` handler (line 561) — when `si1` raises, the handler catches the
exception and makes that second call; when `si2` raises, the outer
`except` returns `False`.  Returns (result, new state, number of self-info
calls performed). -/
def login (now : Int) (resp : Option LoginData) (parse : TokenParse)
    (si1 si2 : SelfInfo) (s : AuthState) : Bool × AuthState × Nat :=
  let s0 := { s with access_token := Option.none, refresh_token := Option.none }
  match resp with
  | Option.none => (false, s0, 0)
  | some d =>
    let s1 := { s0 with
      access_token := some d.accessToken,
      refresh_token := some d.refreshToken,
      access_token_expires := now + d.accessTokenExpiresIn,
      refresh_token_expires := now + d.refreshTokenExpiresIn }
    match parse with
    | .claim i =>
      (true, { s1 with user_id := some i, last_token_refresh_time := now }, 0)
    | .noClaim =>
      match si1 with
      | .ok (some i) =>
        (true, { s1 with user_id := some i, last_token_refresh_time := now }, 1)
      | .ok Option.none => (false, s1, 1)
      | .raises =>
        match si2 with
        | .ok (some i) =>
          (true, { s1 with user_id := some i, last_token_refresh_time := now }, 2)
        | .ok Option.none => (false, s1, 2)
        | .raises => (false, s1, 2)
    | .parseError =>
      match si2 with
      | .ok (some i) =>
        (true, { s1 with user_id := some i, last_token_refresh_time := now }, 1)
      | .ok Option.none => (false, s1, 1)
      | .raises => (false, s1, 1)

/-- `EnhancedBoxIM.is_logged_in` (`bot_core.py` 339-350): a falsy (absent
or empty) access token is not logged in; a token within 300 seconds of its
expiry is not logged in; otherwise logged in. -/
def is_logged_in (now : Int) (s : AuthState) : Bool :=
  match s.access_token with
  | Option.none => false
  | some t =>
    if t = "" then false
    else if now ≥ s.access_token_expires - 300 then false
    else true

/-- `EnhancedBoxIM._token_refresh_cooldown` (`bot_core.py` 223). -/
def token_refresh_cooldown : Int := 30

/-- `EnhancedBoxIM.refresh_token_if_needed` (`bot_core.py` 367-436), with
the `/api/refresh` outcome and the fallback `login`'s outcomes explicit.
The in-flight guard (lines 372-374) returns `False` at once; the cooldown
guard (lines 377-379) returns `True`; a token not within 300 seconds of
expiry returns `True`; otherwise the refresh request runs with
`_is_refreshing_token` set around the body and cleared by `finally`.  A
200/200 refresh response updates the tokens; a bad status or application
code falls through to a full `login` with the stored credentials; a raised
request exception is caught and returns `False` without trying `login`.
Returns (result, new state, number of HTTP requests performed: the refresh
request, plus the login request and its self-info calls when the fallback
runs). -/
def refresh_token_if_needed (now : Int) (net : RefreshNet)
    (lresp : Option LoginData) (lparse : TokenParse) (lsi1 lsi2 : SelfInfo)
    (s : AuthState) : Bool × AuthState × Nat :=
  if s.is_refreshing_token then (false, s, 0)
  else if now - s.last_token_refresh_time < token_refresh_cooldown then
    (true, s, 0)
  else if now ≥ s.access_token_expires - 300 then
    match net with
    | .ok tok rt aei rei =>
      (true, { s with
        access_token := some tok,
        refresh_token :=
          (match rt with | some r => some r | Option.none => s.refresh_token),
        access_token_expires := now + aei,
        refresh_token_expires :=
          (match rei with | some e => now + e | Option.none => s.refresh_token_expires),
        last_token_refresh_time := now,
        is_refreshing_token := false }, 1)
    | .badStatus | .apiError =>
      let l := login now lresp lparse lsi1 lsi2 { s with is_refreshing_token := true }
      if l.1 then
        (true,
          { l.2.1 with
            last_token_refresh_time := now
            is_refreshing_token := false },
          2 + l.2.2)
      else
        (false, { l.2.1 with is_refreshing_token := false }, 2 + l.2.2)
    | .raises => (false, { s with is_refreshing_token := false }, 1)
  else (true, s, 0)

end AuthClient

namespace Dispatcher

/-- A registered message handler with its observable behaviour explicit:
invoked on a message and the current handler-owned state, it either
completes with a new state or raises with an error text.  `σ` is the
handler-owned state, `μ` the message type. -/
def Handler (σ μ : Type) := μ → σ → Except String σ

/-- `EnhancedBoxIM._dispatch_message` (`bot_core.py` 781-789; the `BoxIM`
version at `app.py` 2435-2444 adds only an outer `try/except`): the
handlers registered for the message's category run in registration order;
each call is wrapped in its own `try/except`, so a raised exception is
logged (collected here as `some errorText`) and the loop continues with the
next handler; a raising handler's state changes are not applied (handlers
are atomic in this model).  Returns the state after all handlers and the
per-handler log, one entry per registered handler. -/
def dispatch_message {σ μ : Type} (handlers : List (Handler σ μ)) (m : μ)
    (st : σ) : σ × List (Option String) :=
  match handlers with
  | [] => (st, [])
  | h :: rest =>
    match h m st with
    | .ok st' =>
      let t := dispatch_message rest m st'
      (t.1, Option.none :: t.2)
    | .error e =>
      let t := dispatch_message rest m st
      (t.1, some e :: t.2)

/-- The receive loop feeding the dispatcher: each decoded message frame is
handed to `_dispatch_message` in receipt order; since `_dispatch_message`
catches every handler exception, it never raises into the receive loop. -/
def process_frames {σ μ : Type} (handlers : List (Handler σ μ)) (st : σ) :
    List μ → σ × List (List (Option String))
  | [] => (st, [])
  | m :: rest =>
    let d := dispatch_message handlers m st
    let t := process_frames handlers d.1 rest
    (t.1, d.2 :: t.2)

end Dispatcher

namespace RateGuard

/-- Python dict lookup on an integer-keyed association list. -/
def alookup {α : Type} (k : Int) : List (Int × α) → Option α
  | [] => Option.none
  | (k', v) :: rest => if k' = k then some v else alookup k rest

/-- Python dict assignment `m[k] = v`: updates the entry in place, appends
a new key at the end (insertion order preserved). -/
def aset {α : Type} (k : Int) (v : α) : List (Int × α) → List (Int × α)
  | [] => [(k, v)]
  | (k', v') :: rest =>
    if k' = k then (k, v) :: rest else (k', v') :: aset k v rest

/-- Python `del m[k]` (and the no-op when the key is absent, where the
source guards the deletion with a membership test). -/
def adel {α : Type} (k : Int) (m : List (Int × α)) : List (Int × α) :=
  m.filter (fun p => decide (p.1 ≠ k))

/-- One user's record in `boxim.user_data` (the value store the rate guard
destructively resets), with the fields `_get_user_data` and
`_reset_user_data` install (`app.py` 2553-2567 and 2743-2757).  The
`user_data` store is keyed by `str(user_id)` in the source; integer ids map
to distinct strings, so integer keys model it faithfully. -/
structure UserData where
  exp : Int
  level : Int
  total_messages : Int
  last_message_time : Int
  spam_warnings : Int
  last_warning_time : Int
  current_label : String
  points : Int
  last_sign_date : Option String
  consecutive_days : Int
  total_sign_days : Int
  lottery_count : Int
  lottery_wins : Int
  deriving DecidableEq

/-- The default record both `_get_user_data` (for an unknown user) and
`_reset_user_data` install. -/
def defaultUserData : UserData :=
  { exp := 0, level := 1, total_messages := 0, last_message_time := 0,
    spam_warnings := 0, last_warning_time := 0, current_label := "普通用户",
    points := 0, last_sign_date := Option.none, consecutive_days := 0,
    total_sign_days := 0, lottery_count := 0, lottery_wins := 0 }

/-- The per-level increment `round((level * level) / 2)` used inside
`_calculate_level_from_exp` (`app.py` 2599).  For odd `level`, `level²` is
≡ 1 (mod 8), so Python's banker's rounding of the half-integer lands on the
even number `(level² - 1)/2`; in both parities the result is the floor
`level² / 2`. -/
def exp_for_next_level (level : Nat) : Nat := level * level / 2

/-- The `while True` loop of `LevelSystem._calculate_level_from_exp`
(`app.py` 2594-2607), with fuel bounding the recursion (the source breaks
at level 1000, reached after at most 999 iterations, so fuel 1000 is never
exhausted). -/
def levelLoop : Nat → Nat → Int → Int → Nat
  | 0, level, _, _ => level
  | fuel + 1, level, total, exp =>
    let total := total + (exp_for_next_level level : Int)
    if exp ≥ total then
      let level := level + 1
      if level > 999 then level else levelLoop fuel level total exp
    else level

/-- `LevelSystem._calculate_level_from_exp`. -/
def calculate_level_from_exp (exp : Int) : Nat := levelLoop 1000 1 0 exp

/-- `LevelSystem.labels` (`app.py` 2539-2547). -/
def labels : List (String × Nat × Nat) :=
  [("普通用户", 1, 10), ("活跃用户", 11, 20), ("资深用户", 21, 30),
   ("传奇", 31, 35), ("神话", 36, 45), ("巅峰", 46, 99), ("无敌", 100, 999)]

/-- `LevelSystem.get_user_label` (`app.py` 2760-2765). -/
def get_user_label (level : Nat) : String :=
  match labels.find? (fun r => decide (r.2.1 ≤ level ∧ level ≤ r.2.2)) with
  | some r => r.1
  | Option.none => "无敌"

/-- The `LevelSystem` per-sender rate-guard state (`user_message_times`,
`spam_warnings`, `temp_blacklist`, `app.py` 2534-2536) together with the
shared `boxim.user_data` store and a ghost counter of how many times the
destructive-reset branch of `_handle_spam` has run. -/
structure GuardState where
  user_message_times : List (Int × List Int)
  spam_warnings : List (Int × Nat)
  temp_blacklist : List (Int × Int)
  user_data : List (Int × UserData)
  resets : Nat
  deriving DecidableEq

/-- `LevelSystem._get_user_data` (`app.py` 2549-2582): returns the stored
record, creating the default one first for an unknown user.  (Its
default-filling of missing keys on an existing record is the identity
here, records being structurally complete.) -/
def get_user_data (uid : Int) (m : List (Int × UserData)) :
    UserData × List (Int × UserData) :=
  match alookup uid m with
  | some d => (d, m)
  | Option.none => (defaultUserData, aset uid defaultUserData m)

/-- `LevelSystem._handle_spam` (`app.py` 2670-2699): the warning counter is
incremented (created at 0 first when absent); at exactly 1 the sender gets
a 60-second temporary block; otherwise `_reset_user_data` replaces the
sender's record with the default, the warning counter is zeroed, and the
block and message-times entries are deleted.  The warning messages it sends
are external effects. -/
def handle_spam (now : Int) (uid : Int) (g : GuardState) : GuardState :=
  let w := (alookup uid g.spam_warnings).getD 0 + 1
  let g1 := { g with spam_warnings := aset uid w g.spam_warnings }
  if w = 1 then
    { g1 with temp_blacklist := aset uid (now + 60) g1.temp_blacklist }
  else
    { g1 with
      user_data := aset uid defaultUserData g1.user_data
      spam_warnings := aset uid 0 g1.spam_warnings
      temp_blacklist := adel uid g1.temp_blacklist
      user_message_times := adel uid g1.user_message_times
      resets := g1.resets + 1 }

/-- The sliding-window maintenance of `add_experience` (`app.py`
2633-2637): append the arrival instant, then keep only instants strictly
newer than `now - 5`. -/
def pruneWindow (now : Int) (ts : List Int) : List Int :=
  (ts ++ [now]).filter (fun t => decide (t > now - 5))

/-- The part of `LevelSystem.add_experience` after the blacklist check
(`app.py` 2629-2668): append the arrival instant to the sender's window,
prune instants at or before `now - 5`, detect spam at 5 or more remaining,
otherwise grant experience and re-level. -/
def spam_check_and_gain (now : Int) (uid : Int) (d : UserData)
    (g : GuardState) : Bool × GuardState :=
  let times := pruneWindow now ((alookup uid g.user_message_times).getD [])
  let g1 := { g with user_message_times := aset uid times g.user_message_times }
  if 5 ≤ times.length then
    (false, handle_spam now uid g1)
  else
    let exp' := d.exp + 1
    let new_level := calculate_level_from_exp exp'
    let d1 := { d with
      exp := exp'
      total_messages := d.total_messages + 1
      last_message_time := now }
    let d2 :=
      if (new_level : Int) > d.level then
        let new_label := get_user_label new_level
        let d2 := { d1 with level := (new_level : Int) }
        if new_label ≠ d1.current_label then
          { d2 with current_label := new_label }
        else d2
      else d1
    (true, { g1 with user_data := aset uid d2 g1.user_data })

/-- `LevelSystem.add_experience` (`app.py` 2615-2668).  Returns whether
experience was granted and the new state: `_get_user_data` first (creating
the record if needed), then the temporary-blacklist check — an unexpired
block returns `False` with nothing else touched, an expired one deletes
the block and the warning counter — then the spam window check. -/
def add_experience (now : Int) (uid : Int) (g0 : GuardState) :
    Bool × GuardState :=
  let gd := get_user_data uid g0.user_data
  let d := gd.1
  let g := { g0 with user_data := gd.2 }
  match alookup uid g.temp_blacklist with
  | some expiry =>
    if now < expiry then (false, g)
    else
      let g1 := { g with
        temp_blacklist := adel uid g.temp_blacklist
        spam_warnings := adel uid g.spam_warnings }
      spam_check_and_gain now uid d g1
  | Option.none => spam_check_and_gain now uid d g

/-- A sequence of inbound events (sender, arrival instant) processed by
`add_experience`, as the single-threaded receive path does. -/
def run_guard (g : GuardState) : List (Int × Int) → GuardState
  | [] => g
  | (uid, t) :: rest => run_guard (add_experience t uid g).2 rest

/-- The guard state `LevelSystem.__init__` starts with: the three guard
dicts empty (`app.py` 2534-2536); the `user_data` store may already hold
records loaded from the database. -/
def initGuard (ud : List (Int × UserData)) : GuardState :=
  { user_message_times := [], spam_warnings := [], temp_blacklist := [],
    user_data := ud, resets := 0 }

/-- Invariant of the guard state: every sender's warning counter is at most
1, and a sender with a positive warning counter is currently in the
temporary blacklist. -/
def GuardInv (g : GuardState) : Prop :=
  ∀ uid : Int, (alookup uid g.spam_warnings).getD 0 ≤ 1 ∧
    (0 < (alookup uid g.spam_warnings).getD 0 →
      (alookup uid g.temp_blacklist).isSome = true)

end RateGuard

namespace MessageHandlers

theorem safeIntCore_null_word {s : String}
    (h : pyLower s = "none" ∨ pyLower s = "null" ∨ pyLower s = "undefined") :
    safeIntCore (PyVal.pystr s) = .ok Option.none := by
  simp only [safeIntCore]
  rw [if_pos h]

theorem safeIntCore_other_word {s : String}
    (h : ¬(pyLower s = "none" ∨ pyLower s = "null" ∨ pyLower s = "undefined")) :
    safeIntCore (PyVal.pystr s) =
      (match pyIntOfString s with
       | some i => .ok (some i)
       | Option.none => .error PyErr.valueError) := by
  simp only [safeIntCore]
  rw [if_neg h]

end MessageHandlers

open MessageHandlers in
/-- C9: for every raw payload value of an id-like field in an inbound
`Message` (`id`, `sendId`, `recvId`, `groupId`), the parsed field is either
an integer or null/absent and parsing never raises: the strings `"none"`,
`"null"`, `"undefined"` (case-insensitively) and absent values yield null,
numeric strings and numbers yield their integer value, and any other
unparsable value also yields null rather than an error. -/
theorem c9_safe_int_total_int_or_null :
    (∀ v : PyVal, safe_int v = Option.none ∨ ∃ i, safe_int v = some i) ∧
    (∀ v e, safeIntCore v = .error e → safe_int v = Option.none) ∧
    safe_int PyVal.pynone = Option.none ∧
    safe_int PyVal.pyobj = Option.none ∧
    (∀ i, safe_int (PyVal.pyint i) = some i) ∧
    (∀ s, (pyLower s = "none" ∨ pyLower s = "null" ∨ pyLower s = "undefined") →
      safe_int (PyVal.pystr s) = Option.none) ∧
    (∀ s, ¬(pyLower s = "none" ∨ pyLower s = "null" ∨ pyLower s = "undefined") →
      safe_int (PyVal.pystr s) = pyIntOfString s) ∧
    (∀ d : MsgData, messageOfData d =
      { id := safe_int d.id, send_id := safe_int d.sendId,
        recv_id := safe_int d.recvId, group_id := safe_int d.groupId }) := by
  refine ⟨?_, ?_, rfl, rfl, fun i => rfl, ?_, ?_, fun d => rfl⟩
  · intro v
    cases h : safe_int v with
    | none => exact Or.inl rfl
    | some i => exact Or.inr ⟨i, rfl⟩
  · intro v e h
    unfold safe_int
    rw [h]
  · intro s hs
    unfold safe_int
    rw [safeIntCore_null_word hs]
  · intro s hs
    unfold safe_int
    rw [safeIntCore_other_word hs]
    cases hp : pyIntOfString s <;> simp [hp]

namespace BotCore

theorem handle_ws_message_running_false {s : WsState} (f : Frame)
    (h : s.ws_running = false) : (handle_ws_message s f).ws_running = false := by
  unfold handle_ws_message
  split <;> simp [h]

theorem handle_ws_message_count (s : WsState) (f : Frame) :
    (handle_ws_message s f).ws_reconnect_count = s.ws_reconnect_count := by
  unfold handle_ws_message
  split <;> rfl

theorem ws_receive_running_false :
    ∀ (items : List RawItem) (s : WsState), s.ws_running = false →
      (ws_receive s items).1.ws_running = false
  | [], s, h => by simpa [ws_receive] using h
  | .malformed :: _, s, h => by simpa [ws_receive] using h
  | .frame f :: rest, s, h => by
      simp only [ws_receive]
      exact ws_receive_running_false rest _ (handle_ws_message_running_false f h)

theorem ws_receive_count :
    ∀ (items : List RawItem) (s : WsState),
      (ws_receive s items).1.ws_reconnect_count = s.ws_reconnect_count
  | [], _ => rfl
  | .malformed :: _, _ => rfl
  | .frame f :: rest, s => by
      simp only [ws_receive]
      rw [ws_receive_count rest _, handle_ws_message_count]

theorem ws_receive_after_force_offline :
    ∀ (pre post : List RawItem) (s : WsState), RawItem.malformed ∉ pre →
      (ws_receive s (pre ++ RawItem.frame ⟨FORCE_OFFLINE⟩ :: post)).1.ws_running = false
  | [], post, s, _ => by
      simp only [List.nil_append, ws_receive]
      exact ws_receive_running_false post _ (by simp [handle_ws_message])
  | .malformed :: _, _, _, h => absurd (List.mem_cons_self _ _) h
  | .frame f :: p, post, s, h => by
      simp only [List.cons_append, ws_receive]
      exact ws_receive_after_force_offline p post _
        (fun hm => h (List.mem_cons_of_mem _ hm))

theorem app_ws_receive_drops_malformed :
    ∀ (pre : List RawItem) (a : AppCore.AppWsState) (rest : List RawItem),
      AppCore.app_ws_receive a (pre ++ RawItem.malformed :: rest) =
        AppCore.app_ws_receive a (pre ++ rest)
  | [], _, _ => rfl
  | .malformed :: p, a, rest => by
      simp only [List.cons_append, AppCore.app_ws_receive]
      exact app_ws_receive_drops_malformed p a rest
  | .frame f :: p, a, rest => by
      simp only [List.cons_append, AppCore.app_ws_receive]
      exact app_ws_receive_drops_malformed p _ rest

theorem ws_receive_raises_on_malformed :
    ∀ (pre : List RawItem) (s : WsState) (rest : List RawItem),
      RawItem.malformed ∉ pre →
      (ws_receive s (pre ++ RawItem.malformed :: rest)).2 = RecvExit.raised
  | [], _, _, _ => rfl
  | .malformed :: _, _, _, h => absurd (List.mem_cons_self _ _) h
  | .frame f :: p, s, rest, h => by
      simp only [List.cons_append, ws_receive]
      exact ws_receive_raises_on_malformed p _ rest
        (fun hm => h (List.mem_cons_of_mem _ hm))

end BotCore

open BotCore in
/-- C1 (amended): in the `_ws_loop` reconnect logic, for an iteration whose
connect attempt fails, a re-login is attempted exactly when the consecutive
failure count reaches `maxReconnectAttempts`; when that re-login fails the
counter is pinned one below the trigger threshold and reconnection
continues (the loop stays running and a backoff sleep is scheduled) — but
because the pin is only one below the threshold, a single further failed
connect attempt reaches the threshold again and re-login IS re-triggered on
every subsequent single connect failure until a connect succeeds. -/
theorem c1_relogin_threshold_pinned_retrigger (maxF base cap : Nat)
    (inp : IterInput) (s : WsState) (hrun : s.ws_running = true)
    (hflag : s.ws_connected_flag = false) (hopen : inp.openOk = false) :
    (s.consecutive_failures + 1 < maxF →
      (ws_loop_iter maxF base cap inp s).reloginAttempted = false ∧
      (ws_loop_iter maxF base cap inp s).state.consecutive_failures =
        s.consecutive_failures + 1) ∧
    (maxF ≤ s.consecutive_failures + 1 →
      (ws_loop_iter maxF base cap inp s).reloginAttempted = true) ∧
    (inp.reloginOk = false → maxF ≤ s.consecutive_failures + 1 →
      (ws_loop_iter maxF base cap inp s).state.consecutive_failures = maxF - 1 ∧
      (ws_loop_iter maxF base cap inp s).state.ws_running = true ∧
      ((ws_loop_iter maxF base cap inp s).sleptDelay).isSome = true) ∧
    (1 ≤ maxF → s.consecutive_failures = maxF - 1 →
      (ws_loop_iter maxF base cap inp s).reloginAttempted = true) := by
  have hc : ws_connect s inp.openOk inp.authOk inp.frames = (s, true) := by
    rw [hopen]; rfl
  refine ⟨fun h => ?_, fun h => ?_, fun hrel h => ?_, fun h1 h2 => ?_⟩
  · have hnot : ¬ (s.consecutive_failures + 1 ≥ maxF) := by omega
    simp [ws_loop_iter, hc, hrun, hflag, hnot]
  · simp [ws_loop_iter, hc, hrun, hflag, h]
  · simp [ws_loop_iter, hc, hrun, hflag, h, hrel]
  · have h : maxF ≤ s.consecutive_failures + 1 := by omega
    simp [ws_loop_iter, hc, hrun, hflag, h]

/-- Witness for `c1_relogin_threshold_pinned_retrigger`: with the default
configuration (`maxReconnectAttempts = 10`), a state pinned at 9 consecutive
failures after a failed re-login re-triggers re-login on the very next
failed connect attempt. -/
theorem c1_witness_retrigger :
    (BotCore.ws_loop_iter 10 3 60 BotCore.failInput
      ⟨true, false, 4, 9⟩).reloginAttempted = true :=
  (c1_relogin_threshold_pinned_retrigger 10 3 60 BotCore.failInput
    ⟨true, false, 4, 9⟩ rfl rfl rfl).2.2.2 (by decide) rfl

/-- C1 counterexample to the claim as stated: running `_ws_loop` from its
initial state through 11 iterations whose connect attempts and (when tried)
re-logins all fail, the first re-login is attempted at iteration 10 (after
`maxReconnectAttempts = 10` consecutive failures) and — because the failed
re-login pins the counter at 9 — a re-login is attempted AGAIN at iteration
11 after one single further connect failure, contradicting "re-login is not
re-triggered on every subsequent single connect failure". -/
theorem c1_counterexample_relogin_every_failure :
    ((BotCore.ws_loop_run BotCore.MAX_RECONNECT_ATTEMPTS BotCore.RECONNECT_DELAY
        BotCore.MAX_RECONNECT_DELAY BotCore.initWs
        (List.replicate 11 BotCore.failInput)).2.map Prod.fst) =
      [false, false, false, false, false, false, false, false, false,
        true, true] := by decide

open BotCore in
/-- C2: receiving a frame with the ForceOffline command code (cmd = 2) stops
the whole Supervisor, not just the current connection: `_handle_ws_message`
clears both the run flag and the connected flag, the iteration that carried
the frame schedules no backoff sleep and no re-login, and — with the run
flag cleared — `_ws_loop`'s guard fails, so the loop exits and no further
reconnect attempt is made afterwards. -/
theorem c2_force_offline_stops_supervisor (maxF base cap : Nat)
    (pre post : List RawItem) (rok : Bool) (s : WsState) (r : IterResult)
    (hrun : s.ws_running = true) (hpre : RawItem.malformed ∉ pre)
    (hr : r = ws_loop_iter maxF base cap
      ⟨true, true, pre ++ RawItem.frame ⟨FORCE_OFFLINE⟩ :: post, rok⟩ s) :
    (handle_ws_message s ⟨FORCE_OFFLINE⟩).ws_running = false ∧
    (handle_ws_message s ⟨FORCE_OFFLINE⟩).ws_connected_flag = false ∧
    r.state.ws_running = false ∧
    r.state.ws_connected_flag = false ∧
    r.sleptDelay = Option.none ∧
    r.reloginAttempted = false ∧
    (∀ rest, ws_loop_run maxF base cap r.state rest = (r.state, [])) := by
  have hrecv := ws_receive_after_force_offline pre post
    { s with ws_reconnect_count := 0, ws_connected_flag := true } hpre
  have hiter : r.state.ws_running = false ∧ r.state.ws_connected_flag = false ∧
      r.sleptDelay = Option.none ∧ r.reloginAttempted = false := by
    subst hr
    cases hx : (ws_receive { s with ws_reconnect_count := 0, ws_connected_flag := true }
        (pre ++ RawItem.frame ⟨FORCE_OFFLINE⟩ :: post)).2 <;>
      simp_all [ws_loop_iter, ws_connect]
  obtain ⟨h1, h2, h3, h4⟩ := hiter
  refine ⟨by simp [handle_ws_message], by simp [handle_ws_message],
    h1, h2, h3, h4, fun rest => ?_⟩
  cases rest with
  | nil => rfl
  | cons a l => simp [ws_loop_run, h1]

/-- Witness for `c2_force_offline_stops_supervisor`: a running supervisor
whose session delivers exactly one ForceOffline frame exits the loop with
both flags cleared and makes no further reconnect attempt. -/
theorem c2_witness_force_offline :
    (BotCore.ws_loop_iter 10 3 60
      ⟨true, true, [BotCore.RawItem.frame ⟨BotCore.FORCE_OFFLINE⟩], true⟩
      BotCore.initWs).state.ws_running = false :=
  (c2_force_offline_stops_supervisor 10 3 60 [] []
    true BotCore.initWs _ rfl (by decide) rfl).2.2.1

/-- C3 counterexample to the claim as stated, for the
`EnhancedBoxIM._ws_receive` loop (`bot_core.py` 749-759) the claim cites:
`json.loads` of a malformed frame is not caught inside the loop, so the
receive loop exits by exception — the following frame (here a ForceOffline
frame, whose effect on the run flag is therefore never applied) is NOT
processed — and in the supervisor iteration that carried only the malformed
frame the connection is torn down: a consecutive failure is counted and a
6-second backoff reconnect is scheduled, rather than the frame being
dropped with the connection's Active state unchanged. -/
theorem c3_counterexample_core_receive_raises :
    (BotCore.ws_receive ⟨true, true, 0, 0⟩
      [BotCore.RawItem.malformed,
        BotCore.RawItem.frame ⟨BotCore.FORCE_OFFLINE⟩]).2 =
      BotCore.RecvExit.raised ∧
    (BotCore.ws_receive ⟨true, true, 0, 0⟩
      [BotCore.RawItem.malformed,
        BotCore.RawItem.frame ⟨BotCore.FORCE_OFFLINE⟩]).1.ws_running = true ∧
    (BotCore.ws_loop_iter 10 3 60
      ⟨true, true, [BotCore.RawItem.malformed], true⟩
      BotCore.initWs).state.consecutive_failures = 1 ∧
    (BotCore.ws_loop_iter 10 3 60
      ⟨true, true, [BotCore.RawItem.malformed], true⟩
      BotCore.initWs).state.ws_connected_flag = false ∧
    (BotCore.ws_loop_iter 10 3 60
      ⟨true, true, [BotCore.RawItem.malformed], true⟩
      BotCore.initWs).sleptDelay = some 6 := by decide

open BotCore AppCore in
/-- C3 (amended): the two receive loops diverge on a malformed frame.  In
`BoxIM._ws_receive` (`app.py` 2393-2411) the claim holds: the malformed
frame is logged and dropped, the state is unchanged and the loop continues
with the next frame, wherever in the stream the malformed frame occurs.  In
`EnhancedBoxIM._ws_receive` (`bot_core.py` 749-759) it does not:
`json.loads` is unguarded inside the loop, so the first malformed frame
raises out of the receive loop and the remaining frames are never
processed (the supervisor then counts a connect failure and reconnects). -/
theorem c3_decode_error_app_drops_core_raises (a : AppWsState) (s : WsState)
    (pre rest : List RawItem) (hpre : RawItem.malformed ∉ pre) :
    app_ws_receive a (pre ++ RawItem.malformed :: rest) =
      app_ws_receive a (pre ++ rest) ∧
    (ws_receive s (pre ++ RawItem.malformed :: rest)).2 = RecvExit.raised :=
  ⟨app_ws_receive_drops_malformed pre a rest,
    ws_receive_raises_on_malformed pre s rest hpre⟩

/-- Witness for `c3_decode_error_app_drops_core_raises` at a concrete
stream: one well-formed frame, then a malformed one, then a ForceOffline
frame. -/
theorem c3_witness_decode_error :
    AppCore.app_ws_receive ⟨true⟩
        [BotCore.RawItem.frame ⟨3⟩, BotCore.RawItem.malformed,
          BotCore.RawItem.frame ⟨BotCore.FORCE_OFFLINE⟩] =
      AppCore.app_ws_receive ⟨true⟩
        [BotCore.RawItem.frame ⟨3⟩,
          BotCore.RawItem.frame ⟨BotCore.FORCE_OFFLINE⟩] ∧
    (BotCore.ws_receive ⟨true, true, 0, 0⟩
        [BotCore.RawItem.frame ⟨3⟩, BotCore.RawItem.malformed,
          BotCore.RawItem.frame ⟨BotCore.FORCE_OFFLINE⟩]).2 =
      BotCore.RecvExit.raised :=
  c3_decode_error_app_drops_core_raises ⟨true⟩ ⟨true, true, 0, 0⟩
    [BotCore.RawItem.frame ⟨3⟩]
    [BotCore.RawItem.frame ⟨BotCore.FORCE_OFFLINE⟩] (by decide)

open BotCore in
/-- C6: in `_ws_loop`, whenever an iteration schedules a reconnect sleep,
the slept delay equals `min(base * 2^n, cap)` where `n` is the value of the
reconnect attempt counter `ws_reconnect_count` for the upcoming attempt
(the counter is incremented before the delay is computed, `bot_core.py`
636-639); and the counter is reset to 0 by `_ws_connect` as soon as the
socket open succeeds, i.e. on any transition into the Active state
(`bot_core.py` 678), so it is 0 immediately after a successful transition
to Active. -/
theorem c6_backoff_formula_and_reset (maxF base cap : Nat) (inp : IterInput)
    (s : WsState) (authOk : Bool) (frames : List RawItem) :
    (ws_connect s true authOk frames).1.ws_reconnect_count = 0 ∧
    ((ws_loop_iter maxF base cap inp s).sleptDelay = Option.none ∨
      (ws_loop_iter maxF base cap inp s).sleptDelay =
        some (min (base *
          2 ^ (ws_loop_iter maxF base cap inp s).state.ws_reconnect_count)
          cap)) := by
  constructor
  · cases authOk with
    | false => simp [ws_connect]
    | true =>
      simp only [ws_connect, Bool.not_true, Bool.false_eq_true, if_false,
        Bool.not_false, if_true]
      rw [ws_receive_count]
  · rcases hb : ws_connect s inp.openOk inp.authOk inp.frames with ⟨s1, raised⟩
    simp only [ws_loop_iter, hb]
    cases raised <;> cases hr : s1.ws_running <;> cases hf : s1.ws_connected_flag <;>
      simp [hr, hf] <;> split_ifs <;> simp

/-- C4 counterexample to the claim as stated: with a login endpoint success
(token lifetime 3600s), a token carrying no usable subject claim, and a
self-info fallback that returns no usable id, `login` returns failure after
exactly one self-info call — but the freshly stored access token is not
cleared on this path, so `is_logged_in` is `true`, not `false`, right after
the failed `login` returns. -/
theorem c4_counterexample_logged_in_after_failed_login :
    (AuthClient.login 0 (some ⟨"tok", "ref", 3600, 7200⟩)
      AuthClient.TokenParse.noClaim (AuthClient.SelfInfo.ok Option.none)
      (AuthClient.SelfInfo.ok Option.none)
      ⟨Option.none, Option.none, 0, 0, Option.none, 0, false⟩).1 = false ∧
    (AuthClient.login 0 (some ⟨"tok", "ref", 3600, 7200⟩)
      AuthClient.TokenParse.noClaim (AuthClient.SelfInfo.ok Option.none)
      (AuthClient.SelfInfo.ok Option.none)
      ⟨Option.none, Option.none, 0, 0, Option.none, 0, false⟩).2.2 = 1 ∧
    AuthClient.is_logged_in 0
      ((AuthClient.login 0 (some ⟨"tok", "ref", 3600, 7200⟩)
        AuthClient.TokenParse.noClaim (AuthClient.SelfInfo.ok Option.none)
        (AuthClient.SelfInfo.ok Option.none)
        ⟨Option.none, Option.none, 0, 0, Option.none, 0, false⟩).2.1) =
      true := by decide

open AuthClient in
/-- C4 (amended): when login succeeds at the endpoint but the access token
carries no usable subject claim, `login` falls back to the self-info call —
exactly once when that call returns (but a second time, through the
`except` handler, when the first call raises); if the fallback yields no
usable id, `login` returns failure, yet the freshly stored access token is
left in place, so `is_logged_in` is `true` (not `false`) after the failed
`login` returns whenever the returned token's lifetime exceeds the
300-second expiry margin. -/
theorem c4_login_fallback_once_but_partial_state (now : Int) (d : LoginData)
    (si2 : SelfInfo) (s : AuthState) (hexp : 300 < d.accessTokenExpiresIn)
    (htok : d.accessToken ≠ "") :
    (login now (some d) TokenParse.noClaim (SelfInfo.ok Option.none) si2 s).1
        = false ∧
    (login now (some d) TokenParse.noClaim (SelfInfo.ok Option.none) si2 s).2.2
        = 1 ∧
    (login now (some d) TokenParse.noClaim (SelfInfo.ok Option.none) si2
        s).2.1.access_token = some d.accessToken ∧
    is_logged_in now
      (login now (some d) TokenParse.noClaim (SelfInfo.ok Option.none) si2
        s).2.1 = true ∧
    (∀ si2', (login now (some d) TokenParse.noClaim SelfInfo.raises si2' s).2.2
        = 2) := by
  have hlt : ¬ (now ≥ now + d.accessTokenExpiresIn - 300) := by omega
  refine ⟨rfl, rfl, rfl, ?_, fun si2' => ?_⟩
  · simp [login, is_logged_in, htok, hlt]
  · cases si2' with
    | ok o => cases o <;> rfl
    | raises => rfl

/-- Witness for `c4_login_fallback_once_but_partial_state` at a concrete
login response and initial state. -/
theorem c4_witness_fallback_once :
    AuthClient.is_logged_in 5
      ((AuthClient.login 5 (some ⟨"tok", "ref", 3600, 7200⟩)
        AuthClient.TokenParse.noClaim (AuthClient.SelfInfo.ok Option.none)
        (AuthClient.SelfInfo.ok Option.none)
        ⟨Option.none, Option.none, 0, 0, Option.none, 0, false⟩).2.1) = true :=
  (c4_login_fallback_once_but_partial_state 5 ⟨"tok", "ref", 3600, 7200⟩
    (AuthClient.SelfInfo.ok Option.none)
    ⟨Option.none, Option.none, 0, 0, Option.none, 0, false⟩
    (by decide) (by decide)).2.2.2.1

/-- C5 counterexample to the claim as stated: in a state whose token is due
for refresh (within the 300s margin) and whose cooldown has long passed,
but with the refresh mutual-exclusion flag set, a concurrent call to
`refresh_token_if_needed` performs no network call, does not block, leaves
the state unchanged — and returns `False`, the failure outcome, not the
"assume still valid" success outcome the claim states (the cooldown branch
is the one that returns `True`). -/
theorem c5_counterexample_in_flight_returns_failure :
    (AuthClient.refresh_token_if_needed 1000 AuthClient.RefreshNet.badStatus
      Option.none AuthClient.TokenParse.noClaim
      (AuthClient.SelfInfo.ok Option.none) (AuthClient.SelfInfo.ok Option.none)
      ⟨some "tok", some "ref", 1100, 5000, some 7, 0, true⟩) =
    (false, ⟨some "tok", some "ref", 1100, 5000, some 7, 0, true⟩, 0) := by
  decide

open AuthClient in
/-- C5 (amended): if a refresh is already in flight
(`_is_refreshing_token` set), a concurrent call to
`refresh_token_if_needed` performs no network call and short-circuits
immediately — without blocking on the first caller's completion and without
mutating any state — but it returns `False` (the failure outcome), not the
"assume still valid" success outcome. -/
theorem c5_refresh_in_flight_short_circuits_to_failure (now : Int)
    (net : RefreshNet) (lresp : Option LoginData) (lparse : TokenParse)
    (lsi1 lsi2 : SelfInfo) (s : AuthState)
    (h : s.is_refreshing_token = true) :
    refresh_token_if_needed now net lresp lparse lsi1 lsi2 s = (false, s, 0) := by
  simp [refresh_token_if_needed, h]

/-- Witness for `c5_refresh_in_flight_short_circuits_to_failure` at a
concrete in-flight state. -/
theorem c5_witness_in_flight :
    AuthClient.refresh_token_if_needed 1000 AuthClient.RefreshNet.raises
      Option.none AuthClient.TokenParse.noClaim AuthClient.SelfInfo.raises
      AuthClient.SelfInfo.raises
      ⟨Option.none, Option.none, 0, 0, Option.none, 0, true⟩ =
    (false, ⟨Option.none, Option.none, 0, 0, Option.none, 0, true⟩, 0) :=
  c5_refresh_in_flight_short_circuits_to_failure 1000 AuthClient.RefreshNet.raises
    Option.none AuthClient.TokenParse.noClaim AuthClient.SelfInfo.raises
    AuthClient.SelfInfo.raises
    ⟨Option.none, Option.none, 0, 0, Option.none, 0, true⟩ rfl

namespace Dispatcher

theorem dispatch_message_length {σ μ : Type} (m : μ) :
    ∀ (hs : List (Handler σ μ)) (st : σ),
      (dispatch_message hs m st).2.length = hs.length
  | [], _ => rfl
  | h :: rest, st => by
    unfold dispatch_message
    cases h m st <;> simp [dispatch_message_length m rest]

end Dispatcher

open Dispatcher in
/-- C8: for every registered handler list and every dispatched event, an
exception raised by one handler is caught and logged individually (its log
entry is `some e`): the remaining handlers for the same category still run
on the same event — the dispatch outcome after a raising head handler is
exactly that of the remaining handlers, and every registered handler
contributes one log entry — and the dispatcher returns normally, so
processing of the next received frame runs all handlers again. -/
theorem c8_handler_exception_isolated {σ μ : Type} (h : Handler σ μ)
    (rest : List (Handler σ μ)) (m next : μ) (st : σ) (e : String)
    (he : h m st = .error e) :
    (dispatch_message (h :: rest) m st).2 =
      some e :: (dispatch_message rest m st).2 ∧
    (dispatch_message (h :: rest) m st).1 = (dispatch_message rest m st).1 ∧
    (∀ (hs : List (Handler σ μ)) (st' : σ),
      (dispatch_message hs m st').2.length = hs.length) ∧
    process_frames (h :: rest) st [m, next] =
      ((dispatch_message (h :: rest) next
          (dispatch_message (h :: rest) m st).1).1,
        [(dispatch_message (h :: rest) m st).2,
          (dispatch_message (h :: rest) next
            (dispatch_message (h :: rest) m st).1).2]) := by
  refine ⟨?_, ?_, fun hs st' => dispatch_message_length m hs st', rfl⟩
  · simp [dispatch_message, he]
  · simp [dispatch_message, he]

/-- Witness for `c8_handler_exception_isolated`: a raising first handler
followed by a normal one; both log entries are present and the second
handler ran. -/
theorem c8_witness_two_handlers :
    (Dispatcher.dispatch_message
      [fun (_ : Nat) (_ : Nat) => (Except.error "boom" : Except String Nat),
        fun m n => Except.ok (n + m)] 5 0).2 = [some "boom", Option.none] :=
  (c8_handler_exception_isolated
    (fun (_ : Nat) (_ : Nat) => (Except.error "boom" : Except String Nat))
    [fun m n => Except.ok (n + m)] 5 6 0 "boom" rfl).1.trans rfl

namespace RateGuard

theorem alookup_aset {α : Type} (k k' : Int) (v : α) :
    ∀ m : List (Int × α), alookup k (aset k' v m) = if k' = k then some v else alookup k m
  | [] => by simp [aset, alookup]
  | (k'', v'') :: rest => by
    by_cases h2 : k'' = k'
    · subst h2
      by_cases h3 : k'' = k <;> simp [aset, alookup, h3]
    · by_cases h3 : k'' = k
      · subst h3
        have h4 : ¬ k' = k'' := fun he => h2 he.symm
        simp [aset, alookup, h2, h4]
      · simp [aset, alookup, h2, h3, alookup_aset k k' v rest]

theorem adel_cons {α : Type} (k k' : Int) (v : α) (m : List (Int × α)) :
    adel k ((k', v) :: m) = if k' = k then adel k m else (k', v) :: adel k m := by
  by_cases h : k' = k <;> simp [adel, List.filter_cons, h]

theorem alookup_adel {α : Type} (k k' : Int) :
    ∀ m : List (Int × α), alookup k (adel k' m) = if k = k' then Option.none else alookup k m
  | [] => by simp [adel, alookup]
  | (k'', v'') :: rest => by
    by_cases h2 : k'' = k'
    · subst h2
      by_cases h3 : k = k''
      · subst h3
        simp [adel_cons, alookup_adel k k rest]
      · have h4 : ¬ k'' = k := fun he => h3 he.symm
        simp [adel_cons, alookup_adel k k'' rest, alookup, h3, h4]
    · by_cases h3 : k'' = k
      · subst h3
        simp [adel_cons, alookup, h2]
      · simp [adel_cons, alookup, h2, h3, alookup_adel k k' rest]

end RateGuard

namespace RateGuard

theorem handle_spam_first (now uid : Int) (g : GuardState)
    (hw : (alookup uid g.spam_warnings).getD 0 = 0) :
    handle_spam now uid g =
      { g with
        spam_warnings := aset uid 1 g.spam_warnings
        temp_blacklist := aset uid (now + 60) g.temp_blacklist } := by
  unfold handle_spam
  rw [hw]
  rfl

theorem handle_spam_repeat (now uid : Int) (g : GuardState) (n : Nat)
    (hw : (alookup uid g.spam_warnings).getD 0 = n + 1) :
    handle_spam now uid g =
      { g with
        user_data := aset uid defaultUserData g.user_data
        spam_warnings := aset uid 0 (aset uid (n + 2) g.spam_warnings)
        temp_blacklist := adel uid g.temp_blacklist
        user_message_times := adel uid g.user_message_times
        resets := g.resets + 1 } := by
  unfold handle_spam
  rw [hw]
  have h1 : ¬ (n + 1 + 1 = 1) := by omega
  rw [if_neg h1]

theorem add_experience_spam (now uid : Int) (g : GuardState)
    (hb : alookup uid g.temp_blacklist = Option.none)
    (hlen : 5 ≤ (pruneWindow now
      ((alookup uid g.user_message_times).getD [])).length) :
    add_experience now uid g = (false, handle_spam now uid
      { g with
        user_data := (get_user_data uid g.user_data).2
        user_message_times := aset uid
          (pruneWindow now ((alookup uid g.user_message_times).getD []))
          g.user_message_times }) := by
  simp only [add_experience]
  rw [hb]
  simp only [spam_check_and_gain]
  rw [if_pos hlen]

theorem guardInv_handle_spam (now uid : Int) (g : GuardState)
    (hg : GuardInv g) (hw : (alookup uid g.spam_warnings).getD 0 = 0) :
    GuardInv (handle_spam now uid g) ∧
    (handle_spam now uid g).resets = g.resets := by
  rw [handle_spam_first now uid g hw]
  refine ⟨fun u => ?_, rfl⟩
  by_cases hu : uid = u
  · subst hu
    simp [alookup_aset]
  · simpa [alookup_aset, hu] using hg u

theorem guardInv_spam_check (now uid : Int) (d : UserData) (g : GuardState)
    (hg : GuardInv g) (hw : (alookup uid g.spam_warnings).getD 0 = 0) :
    GuardInv (spam_check_and_gain now uid d g).2 ∧
    (spam_check_and_gain now uid d g).2.resets = g.resets := by
  simp only [spam_check_and_gain]
  by_cases hlen : 5 ≤ (pruneWindow now
      ((alookup uid g.user_message_times).getD [])).length
  · rw [if_pos hlen]
    exact guardInv_handle_spam now uid
      { g with
        user_message_times := aset uid
          (pruneWindow now ((alookup uid g.user_message_times).getD []))
          g.user_message_times } hg hw
  · rw [if_neg hlen]
    exact ⟨hg, rfl⟩

theorem add_experience_blocked (now uid e : Int) (g : GuardState)
    (hb : alookup uid g.temp_blacklist = some e) (ht : now < e) :
    add_experience now uid g =
      (false, { g with user_data := (get_user_data uid g.user_data).2 }) := by
  simp only [add_experience, hb]
  rw [if_pos ht]

theorem add_experience_expired (now uid e : Int) (g : GuardState)
    (hb : alookup uid g.temp_blacklist = some e) (ht : ¬ now < e) :
    add_experience now uid g =
      spam_check_and_gain now uid (get_user_data uid g.user_data).1
        { g with
          user_data := (get_user_data uid g.user_data).2
          temp_blacklist := adel uid g.temp_blacklist
          spam_warnings := adel uid g.spam_warnings } := by
  simp only [add_experience, hb]
  rw [if_neg ht]

theorem add_experience_not_blocked (now uid : Int) (g : GuardState)
    (hb : alookup uid g.temp_blacklist = Option.none) :
    add_experience now uid g =
      spam_check_and_gain now uid (get_user_data uid g.user_data).1
        { g with user_data := (get_user_data uid g.user_data).2 } := by
  simp only [add_experience, hb]

theorem guardInv_add_experience (now uid : Int) (g : GuardState)
    (hg : GuardInv g) :
    GuardInv (add_experience now uid g).2 ∧
    (add_experience now uid g).2.resets = g.resets := by
  rcases hb : alookup uid g.temp_blacklist with _ | expiry
  · rw [add_experience_not_blocked now uid g hb]
    have hw : (alookup uid g.spam_warnings).getD 0 = 0 := by
      rcases hzero : (alookup uid g.spam_warnings).getD 0 with _ | n
      · rfl
      · have hsome := (hg uid).2 (by omega)
        rw [hb] at hsome
        simp at hsome
    exact guardInv_spam_check now uid (get_user_data uid g.user_data).1
      { g with user_data := (get_user_data uid g.user_data).2 } hg hw
  · by_cases ht : now < expiry
    · rw [add_experience_blocked now uid expiry g hb ht]
      exact ⟨hg, rfl⟩
    · rw [add_experience_expired now uid expiry g hb ht]
      have hg1 : GuardInv { g with
          user_data := (get_user_data uid g.user_data).2
          temp_blacklist := adel uid g.temp_blacklist
          spam_warnings := adel uid g.spam_warnings } := by
        intro u
        by_cases hu : u = uid
        · subst hu
          simp [alookup_adel]
        · simpa [alookup_adel, hu] using hg u
      have hw1 : (alookup uid (adel uid g.spam_warnings)).getD 0 = 0 := by
        simp [alookup_adel]
      exact guardInv_spam_check now uid (get_user_data uid g.user_data).1
        { g with
          user_data := (get_user_data uid g.user_data).2
          temp_blacklist := adel uid g.temp_blacklist
          spam_warnings := adel uid g.spam_warnings } hg1 hw1

theorem run_guard_resets :
    ∀ (evs : List (Int × Int)) (g : GuardState), GuardInv g →
      GuardInv (run_guard g evs) ∧ (run_guard g evs).resets = g.resets
  | [], _, hg => ⟨hg, rfl⟩
  | (uid, t) :: rest, g, hg => by
    simp only [run_guard]
    have h1 := guardInv_add_experience t uid g hg
    have h2 := run_guard_resets rest (add_experience t uid g).2 h1.1
    exact ⟨h2.1, h2.2.trans h1.2⟩

end RateGuard

open RateGuard in
/-- C7: for the per-sender rate guard in `LevelSystem`: when the pruned
5-second trailing window (including the incoming event) holds 5 or more
events from the same sender and the sender's warning counter is clear, the
first-offense temporary block of exactly 60 seconds (`now + 60`) is
installed and no experience is granted; an event from a sender whose block
has not yet expired is ignored with no state mutation at all; and an
offense detected while the sender's prior warning counter is still set
takes the destructive-reset path — the sender's record is replaced by the
default, the offense counter is cleared — instead of applying a second
temporary block. -/
theorem c7_rate_guard_block_ignore_reset (now uid e : Int) (d : UserData)
    (g : GuardState) :
    (alookup uid g.temp_blacklist = some e → now < e →
      alookup uid g.user_data = some d →
      add_experience now uid g = (false, g)) ∧
    (alookup uid g.temp_blacklist = Option.none →
      (alookup uid g.spam_warnings).getD 0 = 0 →
      5 ≤ (pruneWindow now ((alookup uid g.user_message_times).getD [])).length →
      (add_experience now uid g).1 = false ∧
      alookup uid (add_experience now uid g).2.temp_blacklist =
        some (now + 60) ∧
      (add_experience now uid g).2.resets = g.resets) ∧
    (alookup uid g.temp_blacklist = Option.none →
      0 < (alookup uid g.spam_warnings).getD 0 →
      5 ≤ (pruneWindow now ((alookup uid g.user_message_times).getD [])).length →
      (add_experience now uid g).1 = false ∧
      alookup uid (add_experience now uid g).2.user_data =
        some defaultUserData ∧
      (alookup uid (add_experience now uid g).2.spam_warnings).getD 0 = 0 ∧
      alookup uid (add_experience now uid g).2.temp_blacklist = Option.none ∧
      (add_experience now uid g).2.resets = g.resets + 1) := by
  refine ⟨fun hb hlt hd => ?_, fun hb hw hlen => ?_, fun hb hw hlen => ?_⟩
  · have hget : get_user_data uid g.user_data = (d, g.user_data) := by
      simp [get_user_data, hd]
    rw [add_experience_blocked now uid e g hb hlt, hget]
  · rw [add_experience_spam now uid g hb hlen]
    rw [handle_spam_first now uid
      { g with
        user_data := (get_user_data uid g.user_data).2
        user_message_times := aset uid
          (pruneWindow now ((alookup uid g.user_message_times).getD []))
          g.user_message_times } hw]
    refine ⟨rfl, ?_, rfl⟩
    simp [alookup_aset]
  · rw [add_experience_spam now uid g hb hlen]
    obtain ⟨n, hn⟩ : ∃ n, (alookup uid g.spam_warnings).getD 0 = n + 1 :=
      ⟨(alookup uid g.spam_warnings).getD 0 - 1, by omega⟩
    rw [handle_spam_repeat now uid
      { g with
        user_data := (get_user_data uid g.user_data).2
        user_message_times := aset uid
          (pruneWindow now ((alookup uid g.user_message_times).getD []))
          g.user_message_times } n hn]
    refine ⟨rfl, ?_, ?_, ?_, rfl⟩
    · simp [alookup_aset]
    · simp [alookup_aset]
    · simp [alookup_adel]

/-- Witness for `c7_rate_guard_block_ignore_reset` at concrete states:
a blocked sender's event at instant 50 (block until 100) changes nothing;
a 5th event within 5 seconds from a clean sender installs a block until
`10 + 60 = 70`; the same detection with a standing warning counter takes
the destructive-reset path. -/
theorem c7_witness_scenarios :
    RateGuard.add_experience 50 1
      ⟨[(1, [46, 47, 48, 49])], [], [(1, 100)],
        [(1, RateGuard.defaultUserData)], 0⟩ =
      (false, ⟨[(1, [46, 47, 48, 49])], [], [(1, 100)],
        [(1, RateGuard.defaultUserData)], 0⟩) ∧
    RateGuard.alookup 1 (RateGuard.add_experience 10 1
      ⟨[(1, [7, 8, 9, 10])], [], [], [], 0⟩).2.temp_blacklist = some 70 ∧
    (RateGuard.add_experience 10 1
      ⟨[(1, [7, 8, 9, 10])], [(1, 1)], [], [], 0⟩).2.resets = 1 := by
  refine ⟨?_, ?_, ?_⟩
  · exact (c7_rate_guard_block_ignore_reset 50 1 100 RateGuard.defaultUserData
      ⟨[(1, [46, 47, 48, 49])], [], [(1, 100)],
        [(1, RateGuard.defaultUserData)], 0⟩).1 rfl (by decide) rfl
  · exact ((c7_rate_guard_block_ignore_reset 10 1 0 RateGuard.defaultUserData
      ⟨[(1, [7, 8, 9, 10])], [], [], [], 0⟩).2.1 rfl rfl (by decide)).2.1
  · exact ((c7_rate_guard_block_ignore_reset 10 1 0 RateGuard.defaultUserData
      ⟨[(1, [7, 8, 9, 10])], [(1, 1)], [], [], 0⟩).2.2 rfl (by decide)
      (by decide)).2.2.2.2

open RateGuard in
/-- C10 (implicit): in the rate guard, the destructive-reset branch of
`_handle_spam` is unreachable from any sequence of inbound messages
processed by `add_experience` from the startup state (empty guard
dictionaries, any loaded `user_data` store): the ghost counter of reset
executions stays 0, and every sender's warning counter stays at most 1 —
because a first offense always installs the temporary block, a blocked
sender's messages return before any spam detection, and the first message
after block expiry deletes both the block and the warning counter before a
new detection can occur. -/
theorem c10_destructive_reset_unreachable (evs : List (Int × Int))
    (ud : List (Int × UserData)) :
    (run_guard (initGuard ud) evs).resets = 0 ∧
    ∀ uid : Int,
      (alookup uid (run_guard (initGuard ud) evs).spam_warnings).getD 0 ≤ 1 := by
  have hinv : GuardInv (initGuard ud) := by
    intro u
    constructor
    · simp [initGuard, alookup]
    · intro hpos
      simp [initGuard, alookup] at hpos
  have h := run_guard_resets evs (initGuard ud) hinv
  exact ⟨h.2, fun uid => (h.1 uid).1⟩
